import Mathlib

/-!
Verification of the automatic-georeferencing core of the SelORecon QGIS
plugin (`aerial_item.py`), against its natural-language specification.

The embedding models:
  * Qt's `QTransform` (3x3 homogeneous matrix, row-vector convention:
    a point is multiplied on the LEFT of the matrix) as `QTrafo` over ℚ;
  * the mutable state of an `AerialImage` item that the georeferencing
    routine can touch (its position, transform, the mirrored database row
    and the transform-state flag) as `GState`;
  * `AerialImage.__georeference` (aerial_item.py lines 744-812) as the
    function `georeference`, with the external collaborators (the GDAL
    dataset, the external `georef` matcher and the user's accept/reject
    answer in the `QMessageBox`) supplied through `GeorefEnv`;
  * Python exceptions as the `exn` field of the returned `GStep`
    (`some e` means the call raised `e`; the state field is the item
    state at the moment the call returned or raised);
  * log output as an explicit list of log entries;
  * the shift/scale diagnostics of lines 801-804 as `reportedShift` /
    `reportedScale` over ℝ (they take a square root);
  * the latest-wins pixmap delivery of `__requestPixMap` / `__pixMapReady`
    / `paint` (lines 566-650) as the small state machine `pixStep`;
  * the transform/position update of `wheelEvent` (lines 465-495) as
    `wheelUpdate`, compared against the naive update `naiveUpdate`.

Numeric values are embedded as exact rationals; the float literal `1.e-7`
of the source asserts is embedded as the rational 1/10^7.
-/

/-- Qt `QTransform`: 3x3 homogeneous matrix, row-major fields `m11 .. m33`.
Qt multiplies points on the left: `map (x, y)` computes
`(x, y, 1) * M` followed by the projective division. -/
structure QTrafo where
  m11 : ℚ
  m12 : ℚ
  m13 : ℚ
  m21 : ℚ
  m22 : ℚ
  m23 : ℚ
  m31 : ℚ
  m32 : ℚ
  m33 : ℚ
deriving DecidableEq, Repr

namespace QTrafo

/-- `QTransform(m11, m12, m21, m22, dx, dy)`: the 6-argument constructor,
which fixes the projective column to (0, 0, 1)ᵀ. -/
def ofSix (a11 a12 a21 a22 dx dy : ℚ) : QTrafo :=
  ⟨a11, a12, 0, a21, a22, 0, dx, dy, 1⟩

/-- `QTransform.fromTranslate(dx, dy)`. -/
def fromTranslate (dx dy : ℚ) : QTrafo := ofSix 1 0 0 1 dx dy

/-- `QTransform.fromScale(sx, sy)`. -/
def fromScale (sx sy : ℚ) : QTrafo := ofSix sx 0 0 sy 0 0

/-- The identity transform, `QTransform()` / `np.eye(3)`. -/
def idT : QTrafo := ofSix 1 0 0 1 0 0

/-- Matrix product `A * B` in Qt's row-vector convention: a point mapped by
`A.mul B` is first mapped by `A`, then by `B` (`p * (A * B) = (p * A) * B`). -/
def mul (A B : QTrafo) : QTrafo where
  m11 := A.m11 * B.m11 + A.m12 * B.m21 + A.m13 * B.m31
  m12 := A.m11 * B.m12 + A.m12 * B.m22 + A.m13 * B.m32
  m13 := A.m11 * B.m13 + A.m12 * B.m23 + A.m13 * B.m33
  m21 := A.m21 * B.m11 + A.m22 * B.m21 + A.m23 * B.m31
  m22 := A.m21 * B.m12 + A.m22 * B.m22 + A.m23 * B.m32
  m23 := A.m21 * B.m13 + A.m22 * B.m23 + A.m23 * B.m33
  m31 := A.m31 * B.m11 + A.m32 * B.m21 + A.m33 * B.m31
  m32 := A.m31 * B.m12 + A.m32 * B.m22 + A.m33 * B.m32
  m33 := A.m31 * B.m13 + A.m32 * B.m23 + A.m33 * B.m33

/-- `QTransform::map(x, y)`: `(x, y, 1)` is multiplied on the left of the
matrix and the result is divided by the projective weight. -/
def mapPoint (A : QTrafo) (p : ℚ × ℚ) : ℚ × ℚ :=
  let w := p.1 * A.m13 + p.2 * A.m23 + A.m33
  ((p.1 * A.m11 + p.2 * A.m21 + A.m31) / w,
   (p.1 * A.m12 + p.2 * A.m22 + A.m32) / w)

/-- A transform is affine when its projective column is exactly (0, 0, 1)ᵀ. -/
def IsAffine (A : QTrafo) : Prop := A.m13 = 0 ∧ A.m23 = 0 ∧ A.m33 = 1

instance (A : QTrafo) : Decidable A.IsAffine :=
  inferInstanceAs (Decidable (A.m13 = 0 ∧ A.m23 = 0 ∧ A.m33 = 1))

end QTrafo

/-- A 2x2 matrix `[[a, b], [c, d]]` over ℚ: the linear part of a transform. -/
structure Lin2 where
  a : ℚ
  b : ℚ
  c : ℚ
  d : ℚ
deriving DecidableEq, Repr

namespace Lin2

/-- Determinant of a 2x2 matrix (`np.linalg.det` on a 2x2 array). -/
def det2 (l : Lin2) : ℚ := l.a * l.d - l.b * l.c

/-- Transpose (`.T` on a 2x2 numpy array). -/
def transposeL (l : Lin2) : Lin2 := ⟨l.a, l.c, l.b, l.d⟩

/-- Entrywise scaling by `k`. -/
def smulL (k : ℚ) (l : Lin2) : Lin2 := ⟨k * l.a, k * l.b, k * l.c, k * l.d⟩

theorem det2_transposeL (l : Lin2) : l.transposeL.det2 = l.det2 := by
  simp [det2, transposeL]; ring

theorem det2_smulL (k : ℚ) (l : Lin2) : (smulL k l).det2 = k ^ 2 * l.det2 := by
  simp [det2, smulL]; ring

end Lin2

/-- `transform[:2, :2]`: the upper-left 2x2 linear part of a transform,
with numpy row `i` equal to QTransform row `i`
(the source builds `transform = [[m11, m12, m13], [m21, m22, m23], [m31, m32, m33]]`,
aerial_item.py lines 748-750). -/
def linOf (t : QTrafo) : Lin2 := ⟨t.m11, t.m12, t.m21, t.m22⟩

/-- `TransformState` enum of aerial_item.py. -/
inductive TState where
  | original
  | changed
  | locked
deriving DecidableEq, Repr

/-- The caller state that `AerialImage.__georeference` can observe or mutate:
the item's scene position and transform, the mirrored `aerials` database row
(scenePos, trafo, trafoLocked columns) and the transform-state flag. -/
structure GState where
  pos : ℚ × ℚ
  trafo : QTrafo
  dbPos : ℚ × ℚ
  dbTrafo : QTrafo
  dbLocked : Bool
  tState : TState
deriving DecidableEq, Repr

/-- `QGraphicsItem::setPos` followed by `AerialImage.itemChange` on
`ItemPositionHasChanged` (lines 402-409): Qt only fires the change handler
when the position actually changed; the handler mirrors the new position to
the database row and marks the transform state as changed
(`__setTransformState` also writes the `trafoLocked` column, lines 702-707). -/
def setPosItem (s : GState) (p : ℚ × ℚ) : GState :=
  if p = s.pos then s
  else { s with pos := p, dbPos := p, dbLocked := false, tState := TState.changed }

/-- `QGraphicsItem::setTransform` followed by `AerialImage.itemChange` on
`ItemTransformHasChanged` (lines 410-419), with the same fire-on-change
semantics as `setPosItem`. -/
def setTrafoItem (s : GState) (t : QTrafo) : GState :=
  if t = s.trafo then s
  else { s with trafo := t, dbTrafo := t, dbLocked := false, tState := TState.changed }

/-- The `previewRect` column: `[left, top, width, height, rotationCcw]`. -/
structure PreviewRect where
  left : ℚ
  top : ℚ
  width : ℚ
  height : ℚ
  rotationCcw : ℤ
deriving DecidableEq, Repr

/-- The value returned by the external `georef` routine on success:
a 2x3 GDAL-style transform (column 0 is the translation, columns 1-2 the
linear part) plus the number of homologous point pairs found
(the two point lists are only drawn as a temporary overlay and logged). -/
structure GeorefOut where
  t1 : ℚ
  t2 : ℚ
  a : ℚ
  b : ℚ
  c : ℚ
  d : ℚ
  nPts : ℕ
deriving DecidableEq, Repr

/-- The environment of one `__georeference` call: everything the routine
reads that is not part of `GState`.  `previewRect` and `openOk`/`rasterX`
describe the database row and the GDAL dataset, `offset` is the pixmap
offset `self.offset()`, `georefResult` is the behaviour of the external
`georef` matcher on this call (`Except.error` models it raising), and
`accept` is the user's answer to the `QMessageBox` question. -/
structure GeorefEnv where
  previewRect : Option PreviewRect
  openOk : Bool
  rasterX : ℕ
  offset : ℚ × ℚ
  georefResult : Except Unit GeorefOut
  accept : Bool
deriving Repr

/-- Python exceptions that can escape `__georeference`. -/
inductive PyError where
  | assertRow      -- `assert abs(transform[2, :] - (0, 0, 1)).max() < 1.e-7` failed
  | assertCol      -- `assert abs(transform[:, 2] - (0, 0, 1)).max() < 1.e-7` failed
  | assertPreview  -- `assert previewRect is None` failed
  | attrError      -- `gdal.Open` returned None, so `ds.RasterXSize` raised
  | zeroDiv        -- `__pixMapWidth / ds.RasterXSize` divided by zero
deriving DecidableEq, Repr

/-- Precondition errors are the assertion-level faults. -/
def PyError.isPre : PyError → Bool
  | .assertRow => true
  | .assertCol => true
  | .assertPreview => true
  | .attrError => false
  | .zeroDiv => false

/-- Log entries emitted by `__georeference`: the `logger.exception` message
of the failure branch (line 769) and the `logger.info` success message of
line 805 (which formats the point count and the shift/scale diagnostics). -/
inductive LogMsg where
  | georefFailed
  | georefInfo (nPts : ℕ)
deriving DecidableEq, Repr

/-- Result of one `__georeference` call: the item state when the call
returned or raised, the log entries emitted, and the exception raised
(if any; `none` means the call returned normally — its Python return
value is `None` on every path). -/
structure GStep where
  state : GState
  logs : List LogMsg
  exn : Option PyError
deriving DecidableEq, Repr

/-- `AerialImage.__pixMapWidth` (line 294). -/
def pixMapWidth : ℚ := 3000

/-- Tolerance `1.e-7` of the transform asserts, as an exact rational. -/
def tol7 : ℚ := 1 / 10 ^ 7

/-- Absolute value on ℚ (the `abs` of the numpy expressions), written with a
kernel-reducible comparison so that concrete runs evaluate by `decide`. -/
def rabs (q : ℚ) : ℚ := if q < 0 then -q else q

theorem rabs_eq_abs (q : ℚ) : rabs q = |q| := by
  unfold rabs; split_ifs with h
  · exact (abs_of_neg h).symm
  · exact (abs_of_nonneg (not_lt.mp h)).symm

/-- `abs(transform[2, :] - (0, 0, 1)).max() < 1.e-7` (line 751):
the bottom row of the homogeneous matrix is (0, 0, 1) within 1e-7. -/
def rowOk (t : QTrafo) : Prop :=
  rabs t.m31 < tol7 ∧ rabs t.m32 < tol7 ∧ rabs (t.m33 - 1) < tol7

/-- `abs(transform[:, 2] - (0, 0, 1)).max() < 1.e-7` (line 752):
the last column of the homogeneous matrix is (0, 0, 1) within 1e-7. -/
def colOk (t : QTrafo) : Prop :=
  rabs t.m13 < tol7 ∧ rabs t.m23 < tol7 ∧ rabs (t.m33 - 1) < tol7

instance (t : QTrafo) : Decidable (rowOk t) :=
  inferInstanceAs (Decidable (rabs t.m31 < tol7 ∧ rabs t.m32 < tol7 ∧ rabs (t.m33 - 1) < tol7))

instance (t : QTrafo) : Decidable (colOk t) :=
  inferInstanceAs (Decidable (rabs t.m13 < tol7 ∧ rabs t.m23 < tol7 ∧ rabs (t.m33 - 1) < tol7))

/-- `scaleNative2display = __pixMapWidth / ds.RasterXSize` (line 770). -/
def scaleN2D (env : GeorefEnv) : ℚ := pixMapWidth / (env.rasterX : ℚ)

/-- The post-processed linear part `gdalTrafo[:, 1:]` after lines 793-794:
the row sign flip (WCS -> scene) followed by the rescaling back to display
resolution, applied to the matcher's result. -/
def finalLinOf (env : GeorefEnv) (out : GeorefOut) : Lin2 :=
  ⟨out.a / scaleN2D env, out.b / scaleN2D env,
   -out.c / scaleN2D env, -out.d / scaleN2D env⟩

/-- `newPos = gdalTrafo[:, 0] + gdalTrafo[:, 1:] @ -off` (line 795), where
`off = (self.offset().x(), self.offset().y())` and row 1 of the translation
column has been sign-flipped by line 793. -/
def newPosOf (env : GeorefEnv) (out : GeorefOut) : ℚ × ℚ :=
  let l := finalLinOf env out
  (out.t1 + (l.a * (-env.offset.1) + l.b * (-env.offset.2)),
   -out.t2 + (l.c * (-env.offset.1) + l.d * (-env.offset.2)))

/-- `newTr = gdalTrafo[:, 1:].T; newTr = QTransform(newTr[0,0], newTr[0,1],
newTr[1,0], newTr[1,1], 0., 0.)` (lines 796-797). -/
def newTrOf (env : GeorefEnv) (out : GeorefOut) : QTrafo :=
  let l := (finalLinOf env out).transposeL
  QTrafo.ofSix l.a l.b l.c l.d 0 0

/-- `AerialImage.__georeference` (aerial_item.py lines 744-812).
The locals `pos` / `tr` of lines 746-747 are `s.pos` / `s.trafo`; the
`topLeft` / `gdalTrafo` construction of lines 755-758 is pure arithmetic
with no observable effect before the external call. -/
def georeference (env : GeorefEnv) (s : GState) : GStep :=
  if ¬ rowOk s.trafo then ⟨s, [], some PyError.assertRow⟩
  else if ¬ colOk s.trafo then ⟨s, [], some PyError.assertCol⟩
  else
    match env.previewRect with
    | some _ => ⟨s, [], some PyError.assertPreview⟩  -- assert previewRect is None (line 761)
    | none =>
      if ¬ env.openOk then ⟨s, [], some PyError.attrError⟩
      else if env.rasterX = 0 then ⟨s, [], some PyError.zeroDiv⟩
      else
        match env.georefResult with
        | Except.error _ =>
          -- except: return logger.exception('Automatic georeferencing failed.')
          ⟨s, [LogMsg.georefFailed], none⟩
        | Except.ok out =>
          if env.accept then
            -- self.setPos(*newPos); self.setTransform(newTr)  (lines 799-800)
            ⟨setTrafoItem (setPosItem s (newPosOf env out)) (newTrOf env out),
             [LogMsg.georefInfo out.nPts], none⟩
          else
            -- ... followed by: self.setPos(pos); self.setTransform(tr)  (lines 808-809)
            ⟨setTrafoItem
               (setPosItem
                 (setTrafoItem (setPosItem s (newPosOf env out)) (newTrOf env out))
                 s.pos)
               s.trafo,
             [LogMsg.georefInfo out.nPts], none⟩

/-- `shift = (pos.x(), pos.y()) - newPos; shift = np.sum(shift ** 2) ** .5`
(lines 801-802): the reported shift diagnostic. -/
noncomputable def reportedShift (env : GeorefEnv) (out : GeorefOut) (s : GState) : ℝ :=
  Real.sqrt (((s.pos.1 - (newPosOf env out).1 : ℚ) : ℝ) ^ 2 +
             ((s.pos.2 - (newPosOf env out).2 : ℚ) : ℝ) ^ 2)

/-- `scale = (np.linalg.det(gdalTrafo[:, 1:].T) / np.linalg.det(transform[:2, :2])) ** .5`
(line 803): the reported scale diagnostic. -/
noncomputable def reportedScale (env : GeorefEnv) (out : GeorefOut) (s : GState) : ℝ :=
  Real.sqrt ((((finalLinOf env out).transposeL.det2 : ℝ)) / ((linOf s.trafo).det2 : ℝ))

/-!  Latest-wins pixmap delivery (`__requestPixMap`, `__pixMapReady`, `paint`;
aerial_item.py lines 566-574 and 616-650).

Decode requests are identified by tokens.  `lastRequested` models the
`__lastRequestedFuture` cell (guarded by `__lastRequestedFutureLock`),
`pending` the single-slot `__futurePixmap` cell (guarded by
`__futurePixmapLock`), and `applied` records the pixmaps actually installed
by `paint` via `__setPixMap`, in order.  Lock-guarded critical sections are
modelled as atomic steps; the events of one scenario are an interleaving of
such steps. -/

/-- Events of the pixmap pipeline:
`request t` is the tail of `__requestPixMap` (submit future `t`, cancel the
previously requested future best-effort, overwrite `__lastRequestedFuture`);
`complete t` is `__pixMapReady` running for future `t` (discard if a newer
request exists, else overwrite the single-slot `__futurePixmap`);
`paintEv` is `paint` consuming the slot and applying the pixmap. -/
inductive PixEvent where
  | request (t : ℕ)
  | complete (t : ℕ)
  | paintEv
deriving DecidableEq, Repr

/-- State of the pixmap pipeline for one image. -/
structure PixState where
  lastRequested : Option ℕ
  pending : Option ℕ
  applied : List ℕ
deriving DecidableEq, Repr

/-- Initial state: no request in flight, empty slot, nothing applied. -/
def pixInit : PixState := ⟨none, none, []⟩

/-- One atomic step of the pixmap pipeline. -/
def pixStep (s : PixState) : PixEvent → PixState
  | PixEvent.request t => { s with lastRequested := some t }
  | PixEvent.complete t =>
      -- with self.__lastRequestedFutureLock: if self.__lastRequestedFuture is not future: return
      if s.lastRequested = some t then { s with pending := some t } else s
  | PixEvent.paintEv =>
      -- with self.__futurePixmapLock: pm = self.__futurePixmap.result(); self.__futurePixmap = None
      match s.pending with
      | some t => { s with pending := none, applied := s.applied ++ [t] }
      | none => s

/-- Run a sequence of events from a state. -/
def pixRun (s : PixState) (es : List PixEvent) : PixState := es.foldl pixStep s

/-- The two-requests scenario: both decode requests are issued (in order
`t1` then `t2`), then the two decodes complete in either order — each
completion is followed by the repaint it schedules via `update()`. -/
def pixScenario (t1 t2 : ℕ) (laterFinishesFirst : Bool) : List PixEvent :=
  [PixEvent.request t1, PixEvent.request t2] ++
  (if laterFinishesFirst then
    [PixEvent.complete t2, PixEvent.paintEv, PixEvent.complete t1, PixEvent.paintEv]
   else
    [PixEvent.complete t1, PixEvent.paintEv, PixEvent.complete t2, PixEvent.paintEv])

/-!  `wheelEvent` transform update (aerial_item.py lines 465-495). -/

/-- The position-and-transform part of an item's state, for `wheelEvent`. -/
structure ItemState where
  pos : ℚ × ℚ
  trafo : QTrafo
deriving DecidableEq, Repr

/-- `self.mapToScene(pt) = self.transform().map(pt) + self.scenePos()` for a
top-level item (comment at lines 467-470). -/
def mapToScene (s : ItemState) (p : ℚ × ℚ) : ℚ × ℚ :=
  ((s.trafo.mapPoint p).1 + s.pos.1, (s.trafo.mapPoint p).2 + s.pos.2)

/-- The wheel-event update actually performed (lines 480-493):
`combined = trafo * self.transform()`, `origin = combined.map(QPointF(0, 0))`,
`combined *= QTransform.fromTranslate(-origin.x(), -origin.y())`,
`self.setTransform(combined)`, `self.moveBy(origin.x(), origin.y())`. -/
def wheelUpdate (trafo : QTrafo) (s : ItemState) : ItemState :=
  let combined := trafo.mul s.trafo
  let origin := combined.mapPoint (0, 0)
  { pos := (s.pos.1 + origin.1, s.pos.2 + origin.2),
    trafo := combined.mul (QTrafo.fromTranslate (-origin.1) (-origin.2)) }

/-- The naive update the source deliberately avoids (comment at lines
484-487): `self.setTransform(combined)` with the position unchanged. -/
def naiveUpdate (trafo : QTrafo) (s : ItemState) : ItemState :=
  { pos := s.pos, trafo := trafo.mul s.trafo }

/-- `trafo = QTransform.fromTranslate(x * (1-scale), y * (1-scale)).scale(scale, scale)`
(line 473): `QTransform::scale` applies the scaling before the existing
transform in Qt's point-mapping order, i.e. it multiplies the scaling matrix
on the left. -/
def wheelZoomTrafo (x y k : ℚ) : QTrafo :=
  (QTrafo.fromScale k k).mul (QTrafo.fromTranslate (x * (1 - k)) (y * (1 - k)))

/-! Helper lemmas about the setter semantics. -/

theorem setPosItem_pos (s : GState) (p : ℚ × ℚ) : (setPosItem s p).pos = p := by
  unfold setPosItem; split_ifs with h
  · exact h.symm
  · rfl

theorem setPosItem_trafo (s : GState) (p : ℚ × ℚ) : (setPosItem s p).trafo = s.trafo := by
  unfold setPosItem; split_ifs <;> rfl

theorem setTrafoItem_trafo (s : GState) (t : QTrafo) : (setTrafoItem s t).trafo = t := by
  unfold setTrafoItem; split_ifs with h
  · exact h.symm
  · rfl

theorem setTrafoItem_pos (s : GState) (t : QTrafo) : (setTrafoItem s t).pos = s.pos := by
  unfold setTrafoItem; split_ifs <;> rfl

/-! Shared concrete inputs used by the witnesses below. -/

/-- A freshly initialised item: at the origin, with the identity transform,
database row in sync, transform not locked. -/
def sInit : GState := ⟨(0, 0), QTrafo.idT, (0, 0), QTrafo.idT, false, TState.original⟩

/-- A concrete matcher output: translation column (3, 4), linear columns
`[[2, 0], [0, -2]]`, 7 homologous points. -/
def outDemo : GeorefOut := ⟨3, 4, 2, 0, 0, -2, 7⟩

/-- A concrete call environment: full raster (no preview crop), dataset opens
with width 3000 (so display and native resolution coincide), pixmap offset
(-1500, -1000), with the matcher behaviour and the dialog answer as given. -/
def envDemo (res : Except Unit GeorefOut) (accept : Bool) : GeorefEnv :=
  ⟨none, true, 3000, (-1500, -1000), res, accept⟩

/-- C1, counterexample.  The claim says every failure inside the
georeferencing call is surfaced to the caller as structured, typed error
information, never only as a log entry.  At this concrete input the external
`georef` routine raises, yet `__georeference` catches it with a bare
`except:` and executes `return logger.exception(...)` (line 769): the call
returns normally (`exn = none`, and its Python return value is `None` as on
every other path), the item state is untouched, and the only trace of the
failure is the log entry — the caller receives no typed error result. -/
theorem georefFailureNotTypedCex :
    (envDemo (Except.error ()) true).georefResult = Except.error () ∧
    georeference (envDemo (Except.error ()) true) sInit =
      ⟨sInit, [LogMsg.georefFailed], none⟩ := by
  constructor
  · rfl
  · simp [georeference, envDemo, sInit, rowOk, colOk, rabs, tol7, QTrafo.idT, QTrafo.ofSix]

/-- C1, amended.  Whenever the call reaches the external `georef` routine
and that routine raises, `__georeference` catches the exception, emits only
the `logger.exception` entry, and returns normally with the item state
unchanged: the failure is reported through the log, not through a typed
error result returned to the caller. -/
theorem georefFailureLoggedOnly (env : GeorefEnv) (s : GState)
    (hrow : rowOk s.trafo) (hcol : colOk s.trafo) (hprev : env.previewRect = none)
    (hopen : env.openOk = true) (hrx : env.rasterX ≠ 0)
    (hfail : env.georefResult = Except.error ()) :
    georeference env s = ⟨s, [LogMsg.georefFailed], none⟩ := by
  simp [georeference, hrow, hcol, hprev, hopen, hrx, hfail]

/-- C1, witness for the amended theorem at a concrete input. -/
theorem georefFailureLoggedOnlyWit :
    georeference (envDemo (Except.error ()) false) sInit =
      ⟨sInit, [LogMsg.georefFailed], none⟩ :=
  georefFailureLoggedOnly (envDemo (Except.error ()) false) sInit
    (by simp [rowOk, rabs, tol7, sInit, QTrafo.idT, QTrafo.ofSix])
    (by simp [colOk, rabs, tol7, sInit, QTrafo.idT, QTrafo.ofSix])
    rfl rfl (by simp [envDemo]) rfl

/-- C3: error atomicity.  Whenever the external matcher raises (for any
reason — modelled by `georefResult = error`), the whole observable item
state — position, transform, database row, lock flag and transform state —
is exactly what it was before the call: the only writes `__georeference`
ever performs happen after a successful return of `georef` (lines 799-800
and 808-809). -/
theorem georefMatcherFailureAtomic (env : GeorefEnv) (s : GState)
    (hfail : env.georefResult = Except.error ()) :
    (georeference env s).state = s := by
  obtain ⟨pr, op, rx, off, res, acc⟩ := env
  cases res with
  | error e => unfold georeference; cases pr <;> split_ifs <;> rfl
  | ok out => exact absurd hfail (by simp)

/-- C3, witness. -/
theorem georefMatcherFailureAtomicWit :
    (georeference (envDemo (Except.error ()) true) sInit).state = sInit :=
  georefMatcherFailureAtomic (envDemo (Except.error ()) true) sInit rfl

/-- C2: reject round-trip.  For any item state and any successful run of the
preview cycle, answering "No" to the accept dialog re-installs the saved
`pos` and `tr` objects (lines 746-747, 808-809), so the final position and
transform are exactly — in this exact-arithmetic model, bit-identically —
the values held immediately before the call. -/
theorem georefRejectRestores (env : GeorefEnv) (s : GState) (out : GeorefOut)
    (hres : env.georefResult = Except.ok out) (hacc : env.accept = false)
    (hrow : rowOk s.trafo) (hcol : colOk s.trafo) (hprev : env.previewRect = none)
    (hopen : env.openOk = true) (hrx : env.rasterX ≠ 0) :
    (georeference env s).state.pos = s.pos ∧
    (georeference env s).state.trafo = s.trafo := by
  simp [georeference, hrow, hcol, hprev, hopen, hrx, hres, hacc,
        setPosItem_pos, setPosItem_trafo, setTrafoItem_pos, setTrafoItem_trafo]

/-- C2, witness. -/
theorem georefRejectRestoresWit :
    (georeference (envDemo (Except.ok outDemo) false) sInit).state.pos = sInit.pos ∧
    (georeference (envDemo (Except.ok outDemo) false) sInit).state.trafo = sInit.trafo :=
  georefRejectRestores (envDemo (Except.ok outDemo) false) sInit outDemo rfl rfl
    (by simp [rowOk, rabs, tol7, sInit, QTrafo.idT, QTrafo.ofSix])
    (by simp [colOk, rabs, tol7, sInit, QTrafo.idT, QTrafo.ofSix])
    rfl rfl (by simp [envDemo]) 

/-- C4: preview-crop precondition.  If the stored `previewRect` is non-null,
the call fails with an assertion-level precondition fault (`assert
previewRect is None`, line 761 — or one of the transform asserts before it,
also precondition faults), emits no log entry, and leaves the entire caller
state (position, transform, database row) unchanged. -/
theorem georefPreviewPrecondition (env : GeorefEnv) (s : GState) (pr : PreviewRect)
    (hprev : env.previewRect = some pr) :
    (georeference env s).state = s ∧ (georeference env s).logs = [] ∧
    ∃ e, (georeference env s).exn = some e ∧ e.isPre = true := by
  by_cases h1 : rowOk s.trafo
  · by_cases h2 : colOk s.trafo
    · refine ⟨?_, ?_, PyError.assertPreview, ?_, rfl⟩ <;> simp [georeference, hprev, h1, h2]
    · refine ⟨?_, ?_, PyError.assertCol, ?_, rfl⟩ <;> simp [georeference, hprev, h1, h2]
  · refine ⟨?_, ?_, PyError.assertRow, ?_, rfl⟩ <;> simp [georeference, h1]

/-- C4, witness. -/
theorem georefPreviewPreconditionWit :
    (georeference ⟨some ⟨0, 0, 10, 10, 0⟩, true, 3000, (-1500, -1000),
                   Except.ok outDemo, true⟩ sInit).state = sInit ∧
    (georeference ⟨some ⟨0, 0, 10, 10, 0⟩, true, 3000, (-1500, -1000),
                   Except.ok outDemo, true⟩ sInit).logs = [] ∧
    ∃ e, (georeference ⟨some ⟨0, 0, 10, 10, 0⟩, true, 3000, (-1500, -1000),
                        Except.ok outDemo, true⟩ sInit).exn = some e ∧ e.isPre = true :=
  georefPreviewPrecondition _ sInit ⟨0, 0, 10, 10, 0⟩ rfl

/-- Helper: once both transform asserts pass, no later branch of
`__georeference` can raise one of the two transform assertion errors. -/
theorem georefExnNotTrafo (env : GeorefEnv) (s : GState)
    (h1 : rowOk s.trafo) (h2 : colOk s.trafo) :
    (georeference env s).exn ≠ some PyError.assertRow ∧
    (georeference env s).exn ≠ some PyError.assertCol := by
  obtain ⟨pr, op, rx, off, res, acc⟩ := env
  cases pr <;> cases op <;> cases res <;> cases acc <;>
    by_cases h3 : rx = 0 <;>
      simp [georeference, h1, h2, h3]

/-- C5: well-formedness of the installed transform.  For every initial
transform accepted by the asserts and every behaviour of the matcher and of
the user, the transform held when the call returns still satisfies the
homogeneous invariant of the asserts (bottom row and last column equal to
(0, 0, 1) within 1e-7); and when a refined transform is actually installed
(matcher succeeded and the user accepted), it is the matrix built by
`QTransform(newTr[0,0], newTr[0,1], newTr[1,0], newTr[1,1], 0., 0.)`
(line 797), whose projective and translation entries are exactly 0 and
whose m33 is exactly 1 — never a malformed matrix. -/
theorem georefWellFormedTrafo (env : GeorefEnv) (s : GState)
    (hrow : rowOk s.trafo) (hcol : colOk s.trafo) (hprev : env.previewRect = none)
    (hopen : env.openOk = true) (hrx : env.rasterX ≠ 0) :
    (rowOk (georeference env s).state.trafo ∧ colOk (georeference env s).state.trafo) ∧
    (∀ out, env.georefResult = Except.ok out → env.accept = true →
      (georeference env s).state.trafo = newTrOf env out ∧
      (newTrOf env out).m31 = 0 ∧ (newTrOf env out).m32 = 0 ∧
      (newTrOf env out).m13 = 0 ∧ (newTrOf env out).m23 = 0 ∧
      (newTrOf env out).m33 = 1) := by
  constructor
  · rcases hres : env.georefResult with e | out
    · have hstep : (georeference env s).state.trafo = s.trafo := by
        simp [georeference, hrow, hcol, hprev, hopen, hrx, hres]
      rw [hstep]
      exact ⟨hrow, hcol⟩
    · cases hacc : env.accept
      · have hstep : (georeference env s).state.trafo = s.trafo := by
          simp [georeference, hrow, hcol, hprev, hopen, hrx, hres, hacc, setTrafoItem_trafo]
        rw [hstep]
        exact ⟨hrow, hcol⟩
      · have hstep : (georeference env s).state.trafo = newTrOf env out := by
          simp [georeference, hrow, hcol, hprev, hopen, hrx, hres, hacc, setTrafoItem_trafo]
        rw [hstep]
        constructor <;> norm_num [rowOk, colOk, newTrOf, QTrafo.ofSix, rabs, tol7]
  · intro out hres hacc
    refine ⟨?_, rfl, rfl, rfl, rfl, rfl⟩
    simp [georeference, hrow, hcol, hprev, hopen, hrx, hres, hacc, setTrafoItem_trafo]

/-- C5, witness. -/
theorem georefWellFormedTrafoWit :
    (rowOk (georeference (envDemo (Except.ok outDemo) true) sInit).state.trafo ∧
     colOk (georeference (envDemo (Except.ok outDemo) true) sInit).state.trafo) ∧
    (∀ out, (envDemo (Except.ok outDemo) true).georefResult = Except.ok out →
      (envDemo (Except.ok outDemo) true).accept = true →
      (georeference (envDemo (Except.ok outDemo) true) sInit).state.trafo =
        newTrOf (envDemo (Except.ok outDemo) true) out ∧
      (newTrOf (envDemo (Except.ok outDemo) true) out).m31 = 0 ∧
      (newTrOf (envDemo (Except.ok outDemo) true) out).m32 = 0 ∧
      (newTrOf (envDemo (Except.ok outDemo) true) out).m13 = 0 ∧
      (newTrOf (envDemo (Except.ok outDemo) true) out).m23 = 0 ∧
      (newTrOf (envDemo (Except.ok outDemo) true) out).m33 = 1) :=
  georefWellFormedTrafo (envDemo (Except.ok outDemo) true) sInit
    (by simp [rowOk, rabs, tol7, sInit, QTrafo.idT, QTrafo.ofSix])
    (by simp [colOk, rabs, tol7, sInit, QTrafo.idT, QTrafo.ofSix])
    rfl rfl (by simp [envDemo])

/-- C8: the transform precondition.  An initial transform is accepted
exactly when the bottom row and the last column of its homogeneous matrix
are (0, 0, 1) within 1e-7: if both checks pass, neither of the two
transform assertion faults can be raised (the transform precondition-failure
branch is unreachable); if either fails, the call raises one of the two
assertion-level faults — both precondition errors — with the caller state
untouched and nothing logged. -/
theorem georefTrafoPrecondition (env : GeorefEnv) (s : GState) :
    (rowOk s.trafo ∧ colOk s.trafo →
      (georeference env s).exn ≠ some PyError.assertRow ∧
      (georeference env s).exn ≠ some PyError.assertCol) ∧
    (¬ (rowOk s.trafo ∧ colOk s.trafo) →
      ((georeference env s).exn = some PyError.assertRow ∨
       (georeference env s).exn = some PyError.assertCol) ∧
      (georeference env s).state = s ∧ (georeference env s).logs = [] ∧
      ∀ e, (georeference env s).exn = some e → e.isPre = true) := by
  constructor
  · rintro ⟨h1, h2⟩
    exact georefExnNotTrafo env s h1 h2
  · intro h
    by_cases h1 : rowOk s.trafo
    · have h2 : ¬ colOk s.trafo := fun hc => h ⟨h1, hc⟩
      refine ⟨Or.inr ?_, ?_, ?_, ?_⟩ <;> simp [georeference, h1, h2, PyError.isPre]
    · refine ⟨Or.inl ?_, ?_, ?_, ?_⟩ <;> simp [georeference, h1, PyError.isPre]

/-- C8, witness: a transform inside tolerance passes the checks; one with a
projective entry of 1/1000 raises a precondition fault without mutation. -/
theorem georefTrafoPreconditionWit :
    ((georeference (envDemo (Except.ok outDemo) true) sInit).exn ≠ some PyError.assertRow ∧
     (georeference (envDemo (Except.ok outDemo) true) sInit).exn ≠ some PyError.assertCol) ∧
    (((georeference (envDemo (Except.ok outDemo) true)
        { sInit with trafo := ⟨1, 0, 1/1000, 0, 1, 0, 0, 0, 1⟩ }).exn = some PyError.assertRow ∨
      (georeference (envDemo (Except.ok outDemo) true)
        { sInit with trafo := ⟨1, 0, 1/1000, 0, 1, 0, 0, 0, 1⟩ }).exn = some PyError.assertCol) ∧
     (georeference (envDemo (Except.ok outDemo) true)
        { sInit with trafo := ⟨1, 0, 1/1000, 0, 1, 0, 0, 0, 1⟩ }).state =
       { sInit with trafo := ⟨1, 0, 1/1000, 0, 1, 0, 0, 0, 1⟩ } ∧
     (georeference (envDemo (Except.ok outDemo) true)
        { sInit with trafo := ⟨1, 0, 1/1000, 0, 1, 0, 0, 0, 1⟩ }).logs = [] ∧
     ∀ e, (georeference (envDemo (Except.ok outDemo) true)
        { sInit with trafo := ⟨1, 0, 1/1000, 0, 1, 0, 0, 0, 1⟩ }).exn = some e →
       e.isPre = true) :=
  ⟨(georefTrafoPrecondition (envDemo (Except.ok outDemo) true) sInit).1
     ⟨by simp [rowOk, rabs, tol7, sInit, QTrafo.idT, QTrafo.ofSix],
      by simp [colOk, rabs, tol7, sInit, QTrafo.idT, QTrafo.ofSix]⟩,
   (georefTrafoPrecondition (envDemo (Except.ok outDemo) true)
      { sInit with trafo := ⟨1, 0, 1/1000, 0, 1, 0, 0, 0, 1⟩ }).2
     (by
       intro hc
       have := hc.2.1
       norm_num [colOk, rabs, tol7, sInit] at this)⟩

/-- C6: the scale diagnostic.  The `scale` reported at line 803 equals the
square root of the ratio of the determinant of the new transform's 2x2
linear part to the determinant of the old transform's 2x2 linear part (the
source divides the determinant of `gdalTrafo[:, 1:].T`, which is the new
transform's linear part, by that of `transform[:2, :2]`); and for a pure
uniform scale change by factor `k` with no rotation (new linear part =
`k` times the old one), the reported diagnostic equals `k` exactly — hence
in particular within the 1e-6 tolerance of the specification. -/
theorem georefScaleDiagnostic (env : GeorefEnv) (out : GeorefOut) (s : GState) (k : ℚ)
    (hk : 0 < k) (hdet : (linOf s.trafo).det2 ≠ 0)
    (hlin : linOf (newTrOf env out) = Lin2.smulL k (linOf s.trafo)) :
    reportedScale env out s =
      Real.sqrt (((linOf (newTrOf env out)).det2 : ℝ) / ((linOf s.trafo).det2 : ℝ)) ∧
    reportedScale env out s = (k : ℝ) := by
  have h0 : reportedScale env out s =
      Real.sqrt (((linOf (newTrOf env out)).det2 : ℝ) / ((linOf s.trafo).det2 : ℝ)) := rfl
  refine ⟨h0, ?_⟩
  rw [h0, hlin, Lin2.det2_smulL]
  push_cast
  rw [mul_div_assoc, div_self (by exact_mod_cast hdet), mul_one]
  exact Real.sqrt_sq (by positivity)

/-- C6, witness: a uniform scale change by factor 2 reports scale 2. -/
theorem georefScaleDiagnosticWit :
    reportedScale (envDemo (Except.ok outDemo) true) outDemo sInit = ((2 : ℚ) : ℝ) :=
  (georefScaleDiagnostic (envDemo (Except.ok outDemo) true) outDemo sInit 2 (by norm_num)
    (by norm_num [linOf, sInit, QTrafo.idT, QTrafo.ofSix, Lin2.det2])
    (by
      simp [newTrOf, finalLinOf, scaleN2D, pixMapWidth, envDemo, outDemo, linOf, sInit,
            QTrafo.idT, QTrafo.ofSix, Lin2.smulL, Lin2.transposeL])).2

/-- C7: the shift diagnostic.  The `shift` reported at lines 801-802 is the
Euclidean distance between the old position and the new translation
component (`np.sum(((pos.x(), pos.y()) - newPos) ** 2) ** .5`); and for a
translation-only change (unchanged linear part) whose displacement has
magnitude `d`, the reported shift equals `d` exactly — in particular within
the 1e-6 tolerance of the specification. -/
theorem georefShiftDiagnostic (env : GeorefEnv) (out : GeorefOut) (s : GState) (d : ℚ)
    (hd : 0 ≤ d) (_hlin : linOf (newTrOf env out) = linOf s.trafo)
    (hmag : (s.pos.1 - (newPosOf env out).1) ^ 2 + (s.pos.2 - (newPosOf env out).2) ^ 2 = d ^ 2) :
    reportedShift env out s =
      Real.sqrt (((s.pos.1 - (newPosOf env out).1 : ℚ) : ℝ) ^ 2 +
                 ((s.pos.2 - (newPosOf env out).2 : ℚ) : ℝ) ^ 2) ∧
    reportedShift env out s = (d : ℝ) := by
  refine ⟨rfl, ?_⟩
  have h : ((s.pos.1 - (newPosOf env out).1 : ℚ) : ℝ) ^ 2 +
      ((s.pos.2 - (newPosOf env out).2 : ℚ) : ℝ) ^ 2 = ((d : ℝ)) ^ 2 := by
    exact_mod_cast hmag
  rw [show reportedShift env out s =
      Real.sqrt (((s.pos.1 - (newPosOf env out).1 : ℚ) : ℝ) ^ 2 +
                 ((s.pos.2 - (newPosOf env out).2 : ℚ) : ℝ) ^ 2) from rfl, h]
  exact Real.sqrt_sq (by exact_mod_cast hd)

/-- A matcher output that keeps the linear part and moves the item to
(3, 4): a translation-only refinement of magnitude 5. -/
def outShift : GeorefOut := ⟨-1497, 996, 1, 0, 0, -1, 5⟩

/-- C7, witness: a translation-only change of magnitude 5 reports shift 5. -/
theorem georefShiftDiagnosticWit :
    reportedShift (envDemo (Except.ok outShift) true) outShift sInit = ((5 : ℚ) : ℝ) :=
  (georefShiftDiagnostic (envDemo (Except.ok outShift) true) outShift sInit 5 (by norm_num)
    (by
      simp [newTrOf, finalLinOf, scaleN2D, pixMapWidth, envDemo, outShift, linOf, sInit,
            QTrafo.idT, QTrafo.ofSix, Lin2.transposeL])
    (by
      simp [newPosOf, finalLinOf, scaleN2D, pixMapWidth, envDemo, outShift, sInit]
      norm_num)).2

/-- C9: latest-wins pixmap delivery.  When two decode requests for the same
image are issued in rapid succession (both submitted before either decode
completes) and the two completions then arrive in either order — each
followed by the repaint it schedules — exactly one pixmap update is applied,
and it is the one of the later request: the earlier completion finds
`__lastRequestedFuture` pointing to the newer future and is discarded. -/
theorem pixmapLatestWins (t1 t2 : ℕ) (hne : t1 ≠ t2) (laterFinishesFirst : Bool) :
    (pixRun pixInit (pixScenario t1 t2 laterFinishesFirst)).applied = [t2] := by
  have hne' : t2 ≠ t1 := hne.symm
  cases laterFinishesFirst <;>
    simp [pixScenario, pixRun, pixStep, pixInit, hne']

/-- C9, witness: both completion orders for requests 0 then 1 apply only
pixmap 1. -/
theorem pixmapLatestWinsWit :
    (pixRun pixInit (pixScenario 0 1 false)).applied = [1] ∧
    (pixRun pixInit (pixScenario 0 1 true)).applied = [1] :=
  ⟨pixmapLatestWins 0 1 (by decide) false, pixmapLatestWins 0 1 (by decide) true⟩

/-- C10: the wheel-event update `setTransform(combined * fromTranslate(-o));
moveBy(o)` with `o = combined.map(0, 0)` produces exactly the same composite
item-to-scene mapping as the naive `setTransform(combined)` with the
position left unchanged, for every point; and afterwards the stored
transform maps the item origin to (0, 0) in parent coordinates (which is
why the source moves the position instead, lines 481-495).  Stated for
affine transforms — the only ones the item ever holds. -/
theorem wheelUpdateEquiv (trafo : QTrafo) (s : ItemState) (p : ℚ × ℚ)
    (h1 : trafo.IsAffine) (h2 : s.trafo.IsAffine) :
    mapToScene (wheelUpdate trafo s) p = mapToScene (naiveUpdate trafo s) p ∧
    (wheelUpdate trafo s).trafo.mapPoint (0, 0) = (0, 0) := by
  obtain ⟨ha, hb, hc⟩ := h1
  obtain ⟨hd, he, hf⟩ := h2
  constructor <;>
    simp [wheelUpdate, naiveUpdate, mapToScene, QTrafo.mul, QTrafo.mapPoint,
          QTrafo.fromTranslate, QTrafo.ofSix, ha, hb, hc, hd, he, hf, Prod.ext_iff] <;>
    constructor <;>
    ring

/-- C10, witness: a concrete wheel zoom (one step, factor 1.1, cursor at
(3, 4)) on an item at (5, 7) with the identity transform. -/
theorem wheelUpdateEquivWit :
    mapToScene (wheelUpdate (wheelZoomTrafo 3 4 (11/10)) ⟨(5, 7), QTrafo.idT⟩) (1, 2) =
      mapToScene (naiveUpdate (wheelZoomTrafo 3 4 (11/10)) ⟨(5, 7), QTrafo.idT⟩) (1, 2) ∧
    (wheelUpdate (wheelZoomTrafo 3 4 (11/10)) ⟨(5, 7), QTrafo.idT⟩).trafo.mapPoint (0, 0) =
      (0, 0) :=
  wheelUpdateEquiv (wheelZoomTrafo 3 4 (11/10)) ⟨(5, 7), QTrafo.idT⟩ (1, 2)
    (by
      simp [wheelZoomTrafo, QTrafo.mul, QTrafo.fromScale, QTrafo.fromTranslate,
            QTrafo.ofSix, QTrafo.IsAffine])
    (by simp [QTrafo.idT, QTrafo.ofSix, QTrafo.IsAffine])
